import Mathlib

/-!
# Verification of the Discord MCP server's resolution and dispatch layer

A shallow embedding, in Lean 4, of the identifier-resolution helpers
(`findGuild`, `findChannel`, `findRole`, `findMember`), the Zod input
schemas, and the tool handlers of `src/index.ts` of the Discord MCP
server.  The Discord collaborator (discord.js client, caches, remote
fetches) is modelled by an explicit `World` value: the set of joined
guilds, the globally fetchable channels, the per-guild role/member
caches together with the outcome that an explicit `fetch()` refresh
would produce, the per-channel message-fetch outcomes, and the
platform's permission-flag names.  Remote mutation calls issued by a
handler are recorded as an explicit `Effect` list instead of being
performed.  `await x.fetch(...)` that throws is modelled by the
corresponding `Except.error`/`Option.none` entry of the `World`.
-/

namespace DiscordMCP

/-- JavaScript `String.prototype.toLowerCase` on the character data used here. -/
def strLower (s : String) : String := ⟨s.toList.map Char.toLower⟩

/-- Join a list of names as `"a", "b", "c"` (the `.map(x => `"${x}"`).join(', ')` idiom). -/
def quotedList (names : List String) : String :=
  String.intercalate ", " (names.map (fun n => "\"" ++ n ++ "\""))

/-- A joined guild, as seen through `client.guilds.cache`. -/
structure GuildE where
  id : String
  name : String
  memberCount : Nat := 0
deriving Repr, DecidableEq

/-- A channel fetchable through `client.channels.fetch`; `isText` is
`channel instanceof TextChannel`. -/
structure ChanE where
  id : String
  guildId : String
  name : String
  isText : Bool
deriving Repr, DecidableEq

/-- A role of a guild's `roles` collection. -/
structure RoleE where
  id : String
  guildId : String
  name : String
deriving Repr, DecidableEq

/-- A guild member: `tag` is `user.tag` (username#discriminator),
`roleIds` the ids in `member.roles.cache`. -/
structure MemberE where
  id : String
  guildId : String
  tag : String
  username : String
  nickname : Option String := none
  roleIds : List String := []
deriving Repr, DecidableEq

/-- A message as returned by `channel.messages.fetch`; `timestamp` is
`createdAt` in epoch milliseconds. -/
structure Msg where
  authorTag : String
  content : String
  timestamp : Nat
deriving Repr, DecidableEq

/-- The collaborator-owned remote/cached state a tool call runs against.
`rolesRefresh` / `membersRefresh` are the outcome a `guild.roles.fetch()` /
`guild.members.fetch()` refresh would have (`.error` = the awaited fetch
throws); `chanMsgs` maps a channel id to the outcome of
`channel.messages.fetch` (a missing entry throws a non-`Error` value). -/
structure World where
  guilds : List GuildE := []
  channels : List ChanE := []
  roles : List RoleE := []
  rolesRefresh : Except String (List RoleE) := .ok []
  members : List MemberE := []
  membersRefresh : Except String (List MemberE) := .ok []
  chanMsgs : List (String × Except String (List Msg)) := []
  permFlags : List String := []
deriving Repr

/-- `client.guilds.cache` rendered as the quoted name list used in error messages. -/
def guildListStr (w : World) : String := quotedList (w.guilds.map (·.name))

/-- `findGuild(guildIdentifier?)` of `src/index.ts`: with no identifier,
succeed only when exactly one guild is joined; with an identifier, fetch
by id first, then fall back to a case-insensitive name search over the
guild cache. -/
def findGuild (w : World) (guildIdentifier : Option String) : Except String GuildE :=
  match guildIdentifier with
  | none =>
    match w.guilds with
    | [g] => .ok g
    | _ => .error ("Bot is in multiple servers. Please specify server name or ID. Available servers: "
        ++ guildListStr w)
  | some ident =>
    match w.guilds.find? (fun g => g.id = ident) with
    | some g => .ok g
    | none =>
      let found := w.guilds.filter (fun g => strLower g.name = strLower ident)
      match found with
      | [] => .error ("Server \"" ++ ident ++ "\" not found. Available servers: " ++ guildListStr w)
      | [g] => .ok g
      | _ => .error ("Multiple servers found with name \"" ++ ident ++ "\": "
          ++ String.intercalate ", " (found.map (fun g => g.name ++ " (ID: " ++ g.id ++ ")"))
          ++ ". Please specify the server ID.")

/-- `guild.channels.cache` of a guild, read off the global channel registry. -/
def guildChannels (w : World) (g : GuildE) : List ChanE :=
  w.channels.filter (fun c => c.guildId = g.id)

/-- JavaScript `s.replace('#', '')` with a string pattern: removes only the
first occurrence of `#`. -/
def removeFirstHashAux : List Char → List Char
  | [] => []
  | c :: cs => if c = '#' then cs else c :: removeFirstHashAux cs

/-- See `removeFirstHashAux`. -/
def removeFirstHash (s : String) : String := ⟨removeFirstHashAux s.toList⟩

/-- The name-fallback filter predicate of `findChannel`: a text channel
whose lowercased name equals the lowercased identifier, or equals the
lowercased identifier with its first `#` removed. -/
def chanNameMatches (ident : String) (c : ChanE) : Bool :=
  c.isText &&
    (strLower c.name == strLower ident || strLower c.name == removeFirstHash (strLower ident))

/-- The quoted `"#name"` list of all text channels of a guild, used in the
channel `NotFound` message. -/
def textChannelNames (w : World) (g : GuildE) : String :=
  String.intercalate ", "
    (((guildChannels w g).filter (fun c => c.isText)).map (fun c => "\"#" ++ c.name ++ "\""))

/-- `findChannel(channelIdentifier, guildIdentifier?)` of `src/index.ts`:
resolve the guild, try `client.channels.fetch` by id (accepting the result
only when it is a text channel of the resolved guild), and on fetch
failure fall back to the case-insensitive name search in the guild's
channel cache, with zero/one/many-match outcomes. -/
def findChannel (w : World) (channelIdentifier : String) (guildIdentifier : Option String) :
    Except String ChanE :=
  match findGuild w guildIdentifier with
  | .error e => .error e
  | .ok g =>
    match w.channels.find? (fun c => c.id = channelIdentifier) with
    | some c =>
      if c.isText ∧ c.guildId = g.id then .ok c
      else .error ("Channel \"" ++ channelIdentifier ++ "\" is not a text channel or not found in server \""
          ++ g.name ++ "\"")
    | none =>
      let found := (guildChannels w g).filter (chanNameMatches channelIdentifier)
      match found with
      | [] => .error ("Channel \"" ++ channelIdentifier ++ "\" not found in server \"" ++ g.name
          ++ "\". Available channels: " ++ textChannelNames w g)
      | [c] => .ok c
      | _ => .error ("Multiple channels found with name \"" ++ channelIdentifier ++ "\" in server \""
          ++ g.name ++ "\": "
          ++ String.intercalate ", " (found.map (fun c => "#" ++ c.name ++ " (" ++ c.id ++ ")"))
          ++ ". Please specify the channel ID.")

/-- `guild.roles.cache` of a guild, read off a role collection. -/
def guildRoles (roles : List RoleE) (g : GuildE) : List RoleE :=
  roles.filter (fun r => r.guildId = g.id)

/-- One lookup pass of `findRole`: `cache.get(id)` followed by the
case-insensitive name `find` (also the `get(id) ?? find(name)` pass run
after the refresh). -/
def roleLookup (cache : List RoleE) (ident : String) : Option RoleE :=
  match cache.find? (fun r => r.id = ident) with
  | some r => some r
  | none => cache.find? (fun r => strLower r.name = strLower ident)

/-- `findRole(roleIdentifier, guildIdentifier?)` of `src/index.ts`, paired
with the number of `guild.roles.fetch()` refresh calls it issued.  On an
initial cache miss the code refreshes once and repeats both lookups on
the then-current cache (unchanged when the refresh itself threw — the
source skips the repeat in that case, which is observationally the same
lookup on the unchanged cache), and only then reports `NotFound` listing
the current cache's role names. -/
def findRole (w : World) (roleIdentifier : String) (guildIdentifier : Option String) :
    Except String RoleE × Nat :=
  match findGuild w guildIdentifier with
  | .error e => (.error e, 0)
  | .ok g =>
    match roleLookup (guildRoles w.roles g) roleIdentifier with
    | some r => (.ok r, 0)
    | none =>
      let cache := match w.rolesRefresh with
        | .ok rs => guildRoles rs g
        | .error _ => guildRoles w.roles g
      match roleLookup cache roleIdentifier with
      | some r => (.ok r, 1)
      | none =>
        (.error ("Role \"" ++ roleIdentifier ++ "\" not found in server \"" ++ g.name
            ++ "\". Available roles: " ++ quotedList (cache.map (·.name))), 1)

/-- JavaScript `s.replace(/[<@!>]/g, '')`: strip every mention-decoration character. -/
def stripMention (s : String) : String :=
  ⟨s.toList.filter (fun c => !(['<', '@', '!', '>'].contains c))⟩

/-- One lookup pass of `findMember`: by cleaned id, then by tag
(case-insensitive), then by nickname-or-username (case-insensitive). -/
def memberLookup (cache : List MemberE) (ident : String) : Option MemberE :=
  match cache.find? (fun m => m.id = stripMention ident) with
  | some m => some m
  | none =>
    match cache.find? (fun m => strLower m.tag == strLower ident) with
    | some m => some m
    | none =>
      cache.find? (fun m =>
        (match m.nickname with
         | some n => strLower n == strLower ident
         | none => false) || strLower m.username == strLower ident)

/-- `findMember(userIdentifier, guildIdentifier?)` of `src/index.ts`:
three lookup passes on the member cache, then one full
`guild.members.fetch()` refresh followed by the same three passes on the
refreshed cache (unchanged when the refresh threw), then `NotFound`. -/
def findMember (w : World) (userIdentifier : String) (guildIdentifier : Option String) :
    Except String MemberE :=
  match findGuild w guildIdentifier with
  | .error e => .error e
  | .ok g =>
    match memberLookup (w.members.filter (fun m => m.guildId = g.id)) userIdentifier with
    | some m => .ok m
    | none =>
      let cache := match w.membersRefresh with
        | .ok ms => ms.filter (fun m => m.guildId = g.id)
        | .error _ => w.members.filter (fun m => m.guildId = g.id)
      match memberLookup cache userIdentifier with
      | some m => .ok m
      | none => .error ("User \"" ++ userIdentifier ++ "\" not found in server \"" ++ g.name ++ "\".")

/-- One Zod issue: a field path and its message. -/
structure Issue where
  path : String
  msg : String
deriving Repr, DecidableEq

/-- The issue a required `z.string()` field contributes when absent. -/
def reqStr (name : String) (v : Option String) : List Issue :=
  match v with
  | some _ => []
  | none => [⟨name, "Required"⟩]

/-- The issues a present `z.number().min(lo).max(hi)` field contributes. -/
def numIssues (name : String) (lo hi : Int) (v : Option Int) : List Issue :=
  match v with
  | none => []
  | some n =>
    (if n < lo then [⟨name, "Number must be greater than or equal to " ++ toString lo⟩] else [])
      ++ (if n > hi then [⟨name, "Number must be less than or equal to " ++ toString hi⟩] else [])

/-- The untyped argument record of a tool call: the union of every field
any schema declares, each absent (`undefined`) or present with its
declared type. -/
structure RawArgs where
  server : Option String := none
  channel : Option String := none
  message : Option String := none
  limit : Option Int := none
  channels : Option (List String) := none
  limitPerChannel : Option Int := none
  channelName : Option String := none
  user : Option String := none
  role : Option String := none
  roleName : Option String := none
  color : Option String := none
  permissions : Option (List String) := none
  mentionable : Option Bool := none
  newName : Option String := none
  newColor : Option String := none
  newPermissions : Option (List String) := none
  newMentionable : Option Bool := none
deriving Repr, DecidableEq

/-- Parsed `SendMessageSchema` output. -/
structure SendMessageArgsP where
  server : Option String
  channel : String
  message : String
deriving Repr, DecidableEq

/-- `SendMessageSchema.parse`: `server` optional, `channel` and `message`
required strings; all issues are collected in declaration order. -/
def SendMessageSchema.parse (a : RawArgs) : Except (List Issue) SendMessageArgsP :=
  match a.channel, a.message with
  | some c, some m => .ok ⟨a.server, c, m⟩
  | _, _ => .error (reqStr "channel" a.channel ++ reqStr "message" a.message)

/-- Parsed `ReadMessagesSchema` output. -/
structure ReadMessagesArgsP where
  server : Option String
  channel : String
  limit : Int
deriving Repr, DecidableEq

/-- `ReadMessagesSchema.parse`: `channel` required,
`limit : z.number().min(1).max(100).default(50)`. -/
def ReadMessagesSchema.parse (a : RawArgs) : Except (List Issue) ReadMessagesArgsP :=
  let issues := reqStr "channel" a.channel ++ numIssues "limit" 1 100 a.limit
  match a.channel with
  | some c => if issues = [] then .ok ⟨a.server, c, a.limit.getD 50⟩ else .error issues
  | none => .error issues

/-- Parsed `ReadMultipleChannelsSchema` output. -/
structure ReadMultipleChannelsArgsP where
  server : Option String
  channels : Option (List String)
  limitPerChannel : Int
deriving Repr, DecidableEq

/-- `ReadMultipleChannelsSchema.parse`: everything optional,
`limitPerChannel : z.number().min(1).max(50).default(10)`. -/
def ReadMultipleChannelsSchema.parse (a : RawArgs) :
    Except (List Issue) ReadMultipleChannelsArgsP :=
  let issues := numIssues "limitPerChannel" 1 50 a.limitPerChannel
  if issues = [] then .ok ⟨a.server, a.channels, a.limitPerChannel.getD 10⟩ else .error issues

/-- `ListChannelsSchema.parse` (also the shape of `ListRolesSchema` and
`GetMemberCountSchema`): only the optional `server`. -/
def ListChannelsSchema.parse (a : RawArgs) : Except (List Issue) (Option String) :=
  .ok a.server

/-- `ListServersSchema.parse`: the empty object shape never fails on a record. -/
def ListServersSchema.parse (_ : RawArgs) : Except (List Issue) Unit :=
  .ok ()

/-- Parsed `CreateChannelSchema` output. -/
structure CreateChannelArgsP where
  server : Option String
  channelName : String
deriving Repr, DecidableEq

/-- `CreateChannelSchema.parse`: `channelName` required. -/
def CreateChannelSchema.parse (a : RawArgs) : Except (List Issue) CreateChannelArgsP :=
  match a.channelName with
  | some n => .ok ⟨a.server, n⟩
  | none => .error (reqStr "channelName" a.channelName)

/-- Parsed `AssignRoleSchema` / `RemoveRoleSchema` output. -/
structure AssignRoleArgsP where
  server : Option String
  user : String
  role : String
deriving Repr, DecidableEq

/-- `AssignRoleSchema.parse`: `user` and `role` required. -/
def AssignRoleSchema.parse (a : RawArgs) : Except (List Issue) AssignRoleArgsP :=
  match a.user, a.role with
  | some u, some r => .ok ⟨a.server, u, r⟩
  | _, _ => .error (reqStr "user" a.user ++ reqStr "role" a.role)

/-- `RemoveRoleSchema.parse`: identical shape to `AssignRoleSchema`. -/
def RemoveRoleSchema.parse (a : RawArgs) : Except (List Issue) AssignRoleArgsP :=
  AssignRoleSchema.parse a

/-- Parsed `CreateRoleSchema` output. -/
structure CreateRoleArgsP where
  server : Option String
  roleName : String
  color : Option String
  permissions : Option (List String)
  mentionable : Bool
deriving Repr, DecidableEq

/-- `CreateRoleSchema.parse`: `roleName` required,
`mentionable : z.boolean().optional().default(false)`. -/
def CreateRoleSchema.parse (a : RawArgs) : Except (List Issue) CreateRoleArgsP :=
  match a.roleName with
  | some n => .ok ⟨a.server, n, a.color, a.permissions, a.mentionable.getD false⟩
  | none => .error (reqStr "roleName" a.roleName)

/-- Parsed `DeleteRoleSchema` / `GetRoleMemberCountSchema` output. -/
structure DeleteRoleArgsP where
  server : Option String
  role : String
deriving Repr, DecidableEq

/-- `DeleteRoleSchema.parse`: `role` required. -/
def DeleteRoleSchema.parse (a : RawArgs) : Except (List Issue) DeleteRoleArgsP :=
  match a.role with
  | some r => .ok ⟨a.server, r⟩
  | none => .error (reqStr "role" a.role)

/-- Parsed `UpdateRoleSchema` output. -/
structure UpdateRoleArgsP where
  server : Option String
  role : String
  newName : Option String
  newColor : Option String
  newPermissions : Option (List String)
  newMentionable : Option Bool
deriving Repr, DecidableEq

/-- `UpdateRoleSchema.parse`: `role` required, the four `new*` fields optional. -/
def UpdateRoleSchema.parse (a : RawArgs) : Except (List Issue) UpdateRoleArgsP :=
  match a.role with
  | some r => .ok ⟨a.server, r, a.newName, a.newColor, a.newPermissions, a.newMentionable⟩
  | none => .error (reqStr "role" a.role)

/-- `GetRoleMemberCountSchema.parse`: identical shape to `DeleteRoleSchema`. -/
def GetRoleMemberCountSchema.parse (a : RawArgs) : Except (List Issue) DeleteRoleArgsP :=
  DeleteRoleSchema.parse a

/-- One element of the `allMessages` aggregate of `read-multiple-channels`
(also the formatted shape of `read-messages`): either a formatted message
(with a `timestamp`) or a per-channel error entry (with `errMsg` and no
`timestamp`). -/
structure Item where
  channel : String
  server : String
  author : String := ""
  content : String := ""
  timestamp : Option Nat := none
  errMsg : Option String := none
deriving Repr, DecidableEq

/-- The `allMessages.sort` comparator of `src/index.ts`:
`b.timestamp && a.timestamp ? Date(b) - Date(a) : 0` — descending when
both items carry a timestamp, neutral (0) otherwise. -/
def itemCmp (a b : Item) : Int :=
  match a.timestamp, b.timestamp with
  | some ta, some tb => (tb : Int) - (ta : Int)
  | _, _ => 0

/-- Stable insertion of a later item into an already-processed prefix: the
item is placed before the first element the comparator orders strictly
after it, so ties (and neutral comparisons) keep their original order. -/
def insertItem (x : Item) : List Item → List Item
  | [] => [x]
  | y :: ys => if itemCmp x y < 0 then x :: y :: ys else y :: insertItem x ys

/-- The canonical stable order consistent with `itemCmp`.  This is NOT
a faithful model of the runtime's `allMessages.sort(itemCmp)` in general:
ECMAScript pins `Array.prototype.sort`'s output to the stable
comparator-sorted order only when the comparator is a consistent
comparison function on the array's elements, and `itemCmp` is
inconsistent as soon as a timestamp-less error entry meets two distinct
timestamps — there the runtime's order is implementation-defined (V8 can
leave such an array unchanged).  The executable handler model below uses
this function as its choice of one conforming output; the
specification-level guarantee the program actually gives is
`jsSortConforms`. -/
def sortItems (l : List Item) : List Item := l.foldl (fun acc x => insertItem x acc) []

/-- `itemCmp` is a consistent comparison function (in the ECMAScript
sense) on the items of `l`: either every item carries a timestamp (the
comparator is then plain numeric comparison), or every comparison among
the items is neutral.  As soon as an error entry coexists with two
distinct timestamps, transitivity of comparator-equality fails and
neither disjunct holds. -/
def cmpConsistentOn (l : List Item) : Prop :=
  (∀ x ∈ l, x.timestamp.isSome = true) ∨ (∀ x ∈ l, ∀ y ∈ l, itemCmp x y = 0)

/-- What ECMAScript guarantees of `allMessages.sort(itemCmp)` on input
`l`: the result is a permutation of `l`, and it is the stable
comparator-sorted order when `itemCmp` is consistent on `l`'s items;
with an inconsistent comparator the order is implementation-defined, so
at the language-specification level any permutation conforms (the
deployed V8 runtime picks one of them). -/
def jsSortConforms (l out : List Item) : Prop :=
  List.Perm l out ∧ (cmpConsistentOn l → out = sortItems l)

/-- `channel.guild.name` of a channel object. -/
def guildNameOf (w : World) (c : ChanE) : String :=
  match w.guilds.find? (fun g => g.id = c.guildId) with
  | some g => g.name
  | none => ""

/-- The formatted-message record built for each fetched message. -/
def formatMsg (w : World) (c : ChanE) (m : Msg) : Item :=
  { channel := "#" ++ c.name, server := guildNameOf w c, author := m.authorTag,
    content := m.content, timestamp := some m.timestamp }

/-- The outcome of `channel.messages.fetch` for a channel id (an id with
no entry models a throw of a non-`Error` value). -/
def fetchMessages (w : World) (chId : String) : Except String (List Msg) :=
  match w.chanMsgs.find? (fun p => p.1 = chId) with
  | some p => p.2
  | none => .error ""

/-- The per-channel try/catch body of `read-multiple-channels`: on a
successful fetch, the channel's formatted messages; on a fetch failure,
the single per-channel error entry. -/
def channelItems (w : World) (limitPerChannel : Int) (c : ChanE) : List Item :=
  match fetchMessages w c.id with
  | .ok msgs => (msgs.take limitPerChannel.toNat).map (formatMsg w c)
  | .error e =>
    [{ channel := "#" ++ c.name, server := guildNameOf w c,
       errMsg := some ("Failed to fetch messages: "
         ++ (if e = "" then "Unknown error" else e)) }]

/-- The internal error taxonomy reaching the dispatcher's catch block:
a Zod validation failure or any other thrown `Error` message. -/
inductive ErrKind where
  | zodFail (issues : List Issue)
  | err (msg : String)
deriving Repr, DecidableEq

/-- The dispatcher's catch block: a `ZodError` is rendered as
`Invalid arguments: path: message, ...`; any other error is wrapped as
`Tool execution failed: ...`. -/
def normalizeError : ErrKind → String
  | .zodFail issues =>
    "Invalid arguments: " ++ String.intercalate ", " (issues.map (fun i => i.path ++ ": " ++ i.msg))
  | .err m => "Tool execution failed: " ++ m

/-- The non-error outcome of `read-multiple-channels`: the early
no-channels text, or the gathered (sorted) item list. -/
inductive ReadMultiOut where
  | noChannels (text : String)
  | fetched (items : List Item)
deriving Repr, DecidableEq

/-- `Promise.all(channelIdentifiers.map(id => findChannel(id, guild.id)))`:
every identifier is resolved through `findChannel`, and any single
resolution failure rejects the whole combined promise with that failure. -/
def resolveAll (w : World) (gid : String) : List String → Except String (List ChanE)
  | [] => .ok []
  | i :: is =>
    match findChannel w i (some gid) with
    | .error e => .error e
    | .ok c =>
      match resolveAll w gid is with
      | .error e => .error e
      | .ok cs => .ok (c :: cs)

/-- Target selection of `read-multiple-channels`: the explicitly listed
channels when a non-empty list was supplied, else every text channel of
the guild. -/
def targetChannels (w : World) (g : GuildE) (chans : Option (List String)) :
    Except String (List ChanE) :=
  match chans with
  | some ids =>
    if ids.length > 0 then resolveAll w g.id ids
    else .ok ((guildChannels w g).filter (fun c => c.isText))
  | none => .ok ((guildChannels w g).filter (fun c => c.isText))

/-- The `read-multiple-channels` handler: parse, resolve the guild,
resolve the target channels (`Promise.all`: the first resolution failure
rejects the whole call), then fetch per channel with the per-channel
try/catch and sort the aggregate with the neutral comparator.  The final
sort step's order is implementation-defined whenever `itemCmp` is
inconsistent on the aggregate; this executable model commits to
`sortItems` as one conforming output, and statements about the response
order that the program actually guarantees go through `jsSortConforms`. -/
def readMultipleChannels (w : World) (a : RawArgs) : Except ErrKind ReadMultiOut :=
  match ReadMultipleChannelsSchema.parse a with
  | .error issues => .error (.zodFail issues)
  | .ok p =>
    match findGuild w p.server with
    | .error e => .error (.err e)
    | .ok g =>
      match targetChannels w g p.channels with
      | .error e => .error (.err e)
      | .ok targets =>
        if targets.length = 0 then
          .ok (.noChannels ("No text channels found or specified in server \"" ++ g.name ++ "\"."))
        else
          .ok (.fetched (sortItems (targets.flatMap (channelItems w p.limitPerChannel))))

/-- A remote mutation call a handler would issue against the platform. -/
inductive Effect where
  | sendMsg (channelId : String) (content : String)
  | createChan (guildId : String) (name : String)
  | addRole (memberId roleId : String)
  | takeRole (memberId roleId : String)
  | newRole (guildId : String) (name : String)
  | dropRole (roleId : String)
  | editRole (roleId : String)
deriving Repr, DecidableEq

/-- Success payloads of the handlers.  Success texts that echo
collaborator-assigned data (new entity ids, message ids) are abstracted
to `done`; list payloads carry their structured data in place of the
JSON rendering. -/
inductive ToolOut where
  | done
  | textOut (s : String)
  | listing (pairs : List (String × String))
  | itemsOut (items : List Item)
  | multiOut (o : ReadMultiOut)
  | countOut (n : Nat)
deriving Repr, DecidableEq

/-- The `send-message` handler: parse, resolve the channel, send. -/
def sendMessageHandler (w : World) (a : RawArgs) : Except ErrKind ToolOut × List Effect :=
  match SendMessageSchema.parse a with
  | .error issues => (.error (.zodFail issues), [])
  | .ok p =>
    match findChannel w p.channel p.server with
    | .error e => (.error (.err e), [])
    | .ok c => (.ok .done, [.sendMsg c.id p.message])

/-- The `read-messages` handler: parse, resolve the channel, fetch up to
`limit` messages and format them (a fetch failure propagates whole). -/
def readMessagesHandler (w : World) (a : RawArgs) : Except ErrKind ToolOut × List Effect :=
  match ReadMessagesSchema.parse a with
  | .error issues => (.error (.zodFail issues), [])
  | .ok p =>
    match findChannel w p.channel p.server with
    | .error e => (.error (.err e), [])
    | .ok c =>
      match fetchMessages w c.id with
      | .error e => (.error (.err e), [])
      | .ok msgs => (.ok (.itemsOut ((msgs.take p.limit.toNat).map (formatMsg w c))), [])

/-- The `list-channels` handler: the guild's text channels as id/name pairs. -/
def listChannelsHandler (w : World) (a : RawArgs) : Except ErrKind ToolOut × List Effect :=
  match ListChannelsSchema.parse a with
  | .error issues => (.error (.zodFail issues), [])
  | .ok server =>
    match findGuild w server with
    | .error e => (.error (.err e), [])
    | .ok g =>
      (.ok (.listing (((guildChannels w g).filter (fun c => c.isText)).map
        (fun c => (c.id, c.name)))), [])

/-- The `list-servers` handler: every joined guild as an id/name pair. -/
def listServersHandler (w : World) (a : RawArgs) : Except ErrKind ToolOut × List Effect :=
  match ListServersSchema.parse a with
  | .error issues => (.error (.zodFail issues), [])
  | .ok _ => (.ok (.listing (w.guilds.map (fun g => (g.id, g.name)))), [])

/-- The `create-channel` handler: duplicate-name guard (case-insensitive,
text channels of the resolved guild) before the creation call. -/
def createChannelHandler (w : World) (a : RawArgs) : Except ErrKind ToolOut × List Effect :=
  match CreateChannelSchema.parse a with
  | .error issues => (.error (.zodFail issues), [])
  | .ok p =>
    match findGuild w p.server with
    | .error e => (.error (.err e), [])
    | .ok g =>
      match (guildChannels w g).find?
          (fun c => strLower c.name == strLower p.channelName && c.isText) with
      | some _ =>
        (.error (.err ("A text channel named \"" ++ p.channelName ++ "\" already exists in server \""
          ++ g.name ++ "\".")), [])
      | none => (.ok .done, [.createChan g.id p.channelName])

/-- The `list-roles` handler: refresh the role cache (a throwing refresh
propagates), then list the guild's roles as id/name pairs. -/
def listRolesHandler (w : World) (a : RawArgs) : Except ErrKind ToolOut × List Effect :=
  match ListChannelsSchema.parse a with
  | .error issues => (.error (.zodFail issues), [])
  | .ok server =>
    match findGuild w server with
    | .error e => (.error (.err e), [])
    | .ok g =>
      match w.rolesRefresh with
      | .error e => (.error (.err e), [])
      | .ok rs => (.ok (.listing ((guildRoles rs g).map (fun r => (r.id, r.name)))), [])

/-- The `assign-role` handler: resolve guild, member and role, then the
already-has-role `Conflict` guard before `member.roles.add`. -/
def assignRoleHandler (w : World) (a : RawArgs) : Except ErrKind ToolOut × List Effect :=
  match AssignRoleSchema.parse a with
  | .error issues => (.error (.zodFail issues), [])
  | .ok p =>
    match findGuild w p.server with
    | .error e => (.error (.err e), [])
    | .ok g =>
      match findMember w p.user (some g.id) with
      | .error e => (.error (.err e), [])
      | .ok m =>
        match (findRole w p.role (some g.id)).1 with
        | .error e => (.error (.err e), [])
        | .ok r =>
          if m.roleIds.contains r.id then
            (.error (.err ("User " ++ m.tag ++ " already has the role \"" ++ r.name ++ "\".")), [])
          else (.ok .done, [.addRole m.id r.id])

/-- The `remove-role` handler: resolve guild, member and role, then the
lacks-role `Conflict` guard before `member.roles.remove`. -/
def removeRoleHandler (w : World) (a : RawArgs) : Except ErrKind ToolOut × List Effect :=
  match RemoveRoleSchema.parse a with
  | .error issues => (.error (.zodFail issues), [])
  | .ok p =>
    match findGuild w p.server with
    | .error e => (.error (.err e), [])
    | .ok g =>
      match findMember w p.user (some g.id) with
      | .error e => (.error (.err e), [])
      | .ok m =>
        match (findRole w p.role (some g.id)).1 with
        | .error e => (.error (.err e), [])
        | .ok r =>
          if m.roleIds.contains r.id then (.ok .done, [.takeRole m.id r.id])
          else
            (.error (.err ("User " ++ m.tag ++ " does not have the role \"" ++ r.name ++ "\".")), [])

/-- The `create-role` handler: duplicate-name `Conflict` guard
(case-insensitive over the guild's role cache), then permission-name
validation (first invalid name throws, listing the valid set), then the
creation call. -/
def createRoleHandler (w : World) (a : RawArgs) : Except ErrKind ToolOut × List Effect :=
  match CreateRoleSchema.parse a with
  | .error issues => (.error (.zodFail issues), [])
  | .ok p =>
    match findGuild w p.server with
    | .error e => (.error (.err e), [])
    | .ok g =>
      match (guildRoles w.roles g).find? (fun r => strLower r.name == strLower p.roleName) with
      | some _ =>
        (.error (.err ("A role named \"" ++ p.roleName ++ "\" already exists in server \""
          ++ g.name ++ "\".")), [])
      | none =>
        match p.permissions with
        | some ps =>
          match ps.find? (fun s => !(w.permFlags.contains s)) with
          | some bad =>
            (.error (.err ("Invalid permission name: " ++ bad ++ ". Valid permissions: "
              ++ String.intercalate ", " w.permFlags)), [])
          | none => (.ok .done, [.newRole g.id p.roleName])
        | none => (.ok .done, [.newRole g.id p.roleName])

/-- The `delete-role` handler: resolve guild and role, then delete. -/
def deleteRoleHandler (w : World) (a : RawArgs) : Except ErrKind ToolOut × List Effect :=
  match DeleteRoleSchema.parse a with
  | .error issues => (.error (.zodFail issues), [])
  | .ok p =>
    match findGuild w p.server with
    | .error e => (.error (.err e), [])
    | .ok g =>
      match (findRole w p.role (some g.id)).1 with
      | .error e => (.error (.err e), [])
      | .ok r => (.ok .done, [.dropRole r.id])

/-- The `update-role` handler: resolve guild and role, build the updates
record from the supplied `new*` fields (validating permission names, first
invalid throws), and fail with `No update parameters provided` when the
record is empty, before `role.edit`. -/
def updateRoleHandler (w : World) (a : RawArgs) : Except ErrKind ToolOut × List Effect :=
  match UpdateRoleSchema.parse a with
  | .error issues => (.error (.zodFail issues), [])
  | .ok p =>
    match findGuild w p.server with
    | .error e => (.error (.err e), [])
    | .ok g =>
      match (findRole w p.role (some g.id)).1 with
      | .error e => (.error (.err e), [])
      | .ok r =>
        match p.newPermissions with
        | some ps =>
          match ps.find? (fun s => !(w.permFlags.contains s)) with
          | some bad =>
            (.error (.err ("Invalid permission name: " ++ bad ++ ". Valid permissions: "
              ++ String.intercalate ", " w.permFlags)), [])
          | none => (.ok .done, [.editRole r.id])
        | none =>
          if p.newName.isSome || p.newColor.isSome || p.newMentionable.isSome then
            (.ok .done, [.editRole r.id])
          else
            (.error (.err "No update parameters provided for the role."), [])

/-- The `get-member-count` handler: refresh members (a throwing refresh
propagates), then report `guild.memberCount`. -/
def getMemberCountHandler (w : World) (a : RawArgs) : Except ErrKind ToolOut × List Effect :=
  match ListChannelsSchema.parse a with
  | .error issues => (.error (.zodFail issues), [])
  | .ok server =>
    match findGuild w server with
    | .error e => (.error (.err e), [])
    | .ok g =>
      match w.membersRefresh with
      | .error e => (.error (.err e), [])
      | .ok _ => (.ok (.countOut g.memberCount), [])

/-- The `get-role-member-count` handler: resolve guild and role, refresh
members, count the cached members whose role set contains the role id. -/
def getRoleMemberCountHandler (w : World) (a : RawArgs) : Except ErrKind ToolOut × List Effect :=
  match GetRoleMemberCountSchema.parse a with
  | .error issues => (.error (.zodFail issues), [])
  | .ok p =>
    match findGuild w p.server with
    | .error e => (.error (.err e), [])
    | .ok g =>
      match (findRole w p.role (some g.id)).1 with
      | .error e => (.error (.err e), [])
      | .ok r =>
        match w.membersRefresh with
        | .error e => (.error (.err e), [])
        | .ok ms =>
          (.ok (.countOut (((ms.filter (fun m => m.guildId = g.id)).filter
            (fun m => m.roleIds.contains r.id)).length)), [])

/-- The `CallToolRequestSchema` dispatcher: route the operation name to
its handler (unknown names throw `Unknown tool`), then normalize every
failure through the catch block into the single outward message. -/
def dispatch (w : World) (name : String) (a : RawArgs) : Except String ToolOut × List Effect :=
  let r : Except ErrKind ToolOut × List Effect :=
    if name = "send-message" then sendMessageHandler w a
    else if name = "read-messages" then readMessagesHandler w a
    else if name = "list-channels" then listChannelsHandler w a
    else if name = "list-servers" then listServersHandler w a
    else if name = "create-channel" then createChannelHandler w a
    else if name = "read-multiple-channels" then
      match readMultipleChannels w a with
      | .error e => (.error e, [])
      | .ok o => (.ok (.multiOut o), [])
    else if name = "list-roles" then listRolesHandler w a
    else if name = "assign-role" then assignRoleHandler w a
    else if name = "remove-role" then removeRoleHandler w a
    else if name = "create-role" then createRoleHandler w a
    else if name = "delete-role" then deleteRoleHandler w a
    else if name = "update-role" then updateRoleHandler w a
    else if name = "get-member-count" then getMemberCountHandler w a
    else if name = "get-role-member-count" then getRoleMemberCountHandler w a
    else (.error (.err ("Unknown tool: " ++ name)), [])
  (r.1.mapError normalizeError, r.2)

/-- The required fields each operation's schema declares (empty for
operations whose fields are all optional and for unknown names),
mirroring the `required` lists of the tool declarations. -/
def requiredFields (name : String) : List String :=
  if name = "send-message" then ["channel", "message"]
  else if name = "read-messages" then ["channel"]
  else if name = "create-channel" then ["channelName"]
  else if name = "assign-role" then ["user", "role"]
  else if name = "remove-role" then ["user", "role"]
  else if name = "create-role" then ["roleName"]
  else if name = "delete-role" then ["role"]
  else if name = "update-role" then ["role"]
  else if name = "get-role-member-count" then ["role"]
  else []

/-- Whether a named required field is absent (`undefined`) in the raw
arguments. -/
def fieldAbsent (a : RawArgs) : String → Bool
  | "channel" => a.channel.isNone
  | "message" => a.message.isNone
  | "channelName" => a.channelName.isNone
  | "user" => a.user.isNone
  | "role" => a.role.isNone
  | "roleName" => a.roleName.isNone
  | _ => false

/-- The required fields of an operation that are missing from the raw
arguments. -/
def missingReq (name : String) (a : RawArgs) : List String :=
  (requiredFields name).filter (fieldAbsent a)

/-! Concrete fixtures used to instantiate the theorems below. -/

/-- Fixture guild. -/
def gAlpha : GuildE := { id := "G1", name := "Alpha", memberCount := 4 }

/-- Second fixture guild. -/
def gBeta : GuildE := { id := "G2", name := "Beta" }

/-- Fixture text channel of `gAlpha`. -/
def cGeneral : ChanE := { id := "C1", guildId := "G1", name := "general", isText := true }

/-- Second fixture text channel of `gAlpha`. -/
def cRandom : ChanE := { id := "C2", guildId := "G1", name := "random", isText := true }

/-- Fixture non-text channel of `gAlpha`. -/
def cVoice : ChanE := { id := "C3", guildId := "G1", name := "voice", isText := false }

/-- Fixture text channel of `gBeta`. -/
def cBeta : ChanE := { id := "C9", guildId := "G2", name := "beta-chat", isText := true }

/-- Fixture role of `gAlpha`. -/
def rMod : RoleE := { id := "R1", guildId := "G1", name := "Moderator" }

/-- Second fixture role of `gAlpha`. -/
def rExtra : RoleE := { id := "R2", guildId := "G1", name := "Helper" }

/-- Fixture member of `gAlpha`, holding `rMod` but not `rExtra`. -/
def mAlice : MemberE :=
  { id := "U1", guildId := "G1", tag := "alice#1", username := "alice", roleIds := ["R1"] }

/-- Fixture world: one joined guild, two text channels (one whose message
fetch fails), one voice channel, a member and two roles. -/
def wEx : World :=
  { guilds := [gAlpha],
    channels := [cGeneral, cRandom, cVoice],
    roles := [rMod, rExtra],
    members := [mAlice],
    chanMsgs := [("C1", .ok [⟨"u#1", "hi", 100⟩, ⟨"u#2", "yo", 200⟩]),
                 ("C2", .error "Missing Access")] }

/-- Fixture world with two joined guilds (ambiguous omitted-server context,
cross-guild channel ids). -/
def wTwo : World :=
  { guilds := [gAlpha, gBeta],
    channels := [cGeneral, cRandom, cVoice, cBeta],
    chanMsgs := [("C1", .ok [⟨"u#1", "hi", 100⟩])] }

/-- Fixture world whose role cache starts empty but whose refresh reveals
`rMod`. -/
def wStale : World :=
  { guilds := [gAlpha], roles := [], rolesRefresh := .ok [rMod] }

/-- Third fixture text channel: shares the name `general` with `cGeneral`
case-insensitively. -/
def cGeneral2 : ChanE := { id := "C4", guildId := "G1", name := "GENERAL", isText := true }

/-- Fixture world with two text channels that share the name `general`
case-insensitively. -/
def wDup : World :=
  { guilds := [gAlpha], channels := [cGeneral, cGeneral2, cVoice] }

/-- Fixture text channel holding only an old message. -/
def cOld : ChanE := { id := "C5", guildId := "G1", name := "old-news", isText := true }

/-- Fixture text channel holding only a new message. -/
def cFresh : ChanE := { id := "C6", guildId := "G1", name := "fresh", isText := true }

/-- Fixture world for the sort-order analysis: an old-message channel,
then a channel whose fetch throws, then a new-message channel. -/
def wGap : World :=
  { guilds := [gAlpha],
    channels := [cOld, cRandom, cFresh],
    chanMsgs := [("C5", .ok [⟨"u#1", "old", 100⟩]),
                 ("C2", .error "boom"),
                 ("C6", .ok [⟨"u#2", "new", 200⟩])] }

/-- The formatted item of `#old-news`'s only (old) message. -/
def iOld : Item :=
  { channel := "#old-news", server := "Alpha", author := "u#1", content := "old",
    timestamp := some 100 }

/-- The per-channel error entry of `#random` on `wGap`. -/
def iErr : Item :=
  { channel := "#random", server := "Alpha", errMsg := some "Failed to fetch messages: boom" }

/-- The formatted item of `#fresh`'s only (new) message. -/
def iNew : Item :=
  { channel := "#fresh", server := "Alpha", author := "u#2", content := "new",
    timestamp := some 200 }

/-- The gathered pre-sort aggregate of `read-multiple-channels` on `wGap`
targeting `old-news`, `random`, `fresh`: an old message, then the error
entry, then a newer message. -/
def gapItems : List Item := [iOld, iErr, iNew]

/-- The response items of `read-multiple-channels` on `wEx` targeting
`general` and `random`: both messages of `#general` (newest first)
followed by the error entry for `#random`. -/
def itemsEx : List Item :=
  [{ channel := "#general", server := "Alpha", author := "u#2", content := "yo",
     timestamp := some 200 },
   { channel := "#general", server := "Alpha", author := "u#1", content := "hi",
     timestamp := some 100 },
   { channel := "#random", server := "Alpha",
     errMsg := some "Failed to fetch messages: Missing Access" }]

/-- The descending-recency guarantee between an earlier and a later list
position: whenever both items carry timestamps, the later one is not newer. -/
def descTS (x y : Item) : Prop :=
  ∀ tx ty, x.timestamp = some tx → y.timestamp = some ty → ty ≤ tx

theorem insertItem_perm (x : Item) (l : List Item) : List.Perm (insertItem x l) (x :: l) := by
  induction l with
  | nil => simp [insertItem]
  | cons y ys ih =>
    by_cases h : itemCmp x y < 0
    · simp [insertItem, h]
    · simp only [insertItem, if_neg h]
      exact (ih.cons y).trans (List.Perm.swap x y ys)

theorem pairwise_insertItem {x : Item} {l : List Item} (h : l.Pairwise descTS) :
    (insertItem x l).Pairwise descTS := by
  induction l with
  | nil => simp [insertItem, descTS]
  | cons y ys ih =>
    rcases List.pairwise_cons.mp h with ⟨hy, hys⟩
    by_cases hc : itemCmp x y < 0
    · simp only [insertItem, if_pos hc]
      refine List.pairwise_cons.mpr ⟨?_, h⟩
      intro z hz tx tz hxts hzts
      rcases hyts : y.timestamp with _ | ty
      · simp [itemCmp, hxts, hyts] at hc
      · simp only [itemCmp, hxts, hyts] at hc
        rcases List.mem_cons.mp hz with rfl | hz
        · rw [hyts] at hzts
          injection hzts with e
          omega
        · have := hy z hz ty tz hyts hzts
          omega
    · simp only [insertItem, if_neg hc]
      refine List.pairwise_cons.mpr ⟨?_, ih hys⟩
      intro z hz
      rcases List.mem_cons.mp ((insertItem_perm x ys).mem_iff.mp hz) with rfl | hz
      · intro ty tz hyts hzts
        simp only [itemCmp, hzts, hyts] at hc
        omega
      · exact hy z hz

theorem sortItems_pairwise (l : List Item) : (sortItems l).Pairwise descTS := by
  suffices h : ∀ acc : List Item, acc.Pairwise descTS →
      (l.foldl (fun a x => insertItem x a) acc).Pairwise descTS from
    h [] List.Pairwise.nil
  induction l with
  | nil => intro acc h; exact h
  | cons x xs ih => intro acc h; exact ih _ (pairwise_insertItem h)

theorem sortItems_perm (l : List Item) : List.Perm (sortItems l) l := by
  suffices h : ∀ acc : List Item, List.Perm (l.foldl (fun a x => insertItem x a) acc) (acc ++ l) by
    simpa using h []
  induction l with
  | nil => intro acc; simp
  | cons x xs ih =>
    intro acc
    exact ((ih _).trans (((insertItem_perm x acc).append_right xs).trans List.perm_middle.symm))

/-- Inversion of a successful `read-multiple-channels` call: the response
items are exactly the sorted aggregate of the per-channel gathered items. -/
theorem readMC_ok_inv (w : World) (a : RawArgs) (items : List Item)
    (h : readMultipleChannels w a = .ok (.fetched items)) :
    ∃ p g targets, ReadMultipleChannelsSchema.parse a = .ok p ∧
      findGuild w p.server = .ok g ∧
      targetChannels w g p.channels = .ok targets ∧
      items = sortItems (targets.flatMap (channelItems w p.limitPerChannel)) := by
  cases hp : ReadMultipleChannelsSchema.parse a with
  | error issues => simp [readMultipleChannels, hp] at h
  | ok p =>
    cases hg : findGuild w p.server with
    | error e => simp [readMultipleChannels, hp, hg] at h
    | ok g =>
      cases ht : targetChannels w g p.channels with
      | error e => simp [readMultipleChannels, hp, hg, ht] at h
      | ok targets =>
        by_cases hz : targets.length = 0
        · simp [readMultipleChannels, hp, hg, ht, hz] at h
        · simp only [readMultipleChannels, hp, hg, ht, if_neg hz, Except.ok.injEq,
            ReadMultiOut.fetched.injEq] at h
          exact ⟨p, g, targets, rfl, hg, ht, h.symm⟩

/-- **C2 (counterexample).** A concrete `read-multiple-channels` call
whose gathered aggregate is an old message, a per-channel error entry,
then a newer message.  On that aggregate the source comparator is not a
consistent comparison function, so the sort specification admits the
identity order as a conforming response order (it is the one the
deployed V8 runtime produces: the array is a single
comparator-nondescending run and is left unchanged) — and that order is
not sorted by descending timestamp across channels, refuting the claim
as stated. -/
theorem readMultipleChannels_sort_counterexample :
    targetChannels wGap gAlpha (some ["old-news", "random", "fresh"]) =
      .ok [cOld, cRandom, cFresh] ∧
    [cOld, cRandom, cFresh].flatMap (channelItems wGap 10) = gapItems ∧
    ¬ cmpConsistentOn gapItems ∧
    jsSortConforms gapItems gapItems ∧
    ¬ gapItems.Pairwise descTS := by
  have hnc : ¬ cmpConsistentOn gapItems := by
    intro hc
    rcases hc with hc | hc
    · have := hc iErr (by simp [gapItems])
      simp [iErr] at this
    · have := hc iOld (by simp [gapItems]) iNew (by simp [gapItems])
      simp only [itemCmp, iOld, iNew] at this
      omega
  refine ⟨rfl, rfl, hnc, ⟨List.Perm.refl _, fun hc => absurd hc hnc⟩, ?_⟩
  intro h
  simp only [gapItems] at h
  have h1 := (List.pairwise_cons.mp h).1
  have h2 := h1 iNew (by simp)
  exact absurd (h2 100 200 rfl rfl) (by omega)

/-- **C2 (amended).** The response of a successful `read-multiple-channels`
call conforms to the sort specification on the gathered per-channel
items: it is a permutation of exactly those items; whenever the
comparator is consistent on them — in particular whenever every gathered
item carries a timestamp, i.e. no per-channel error entry is present —
every conforming response (this model's included) is sorted by
descending timestamp across all channels; and the comparator is neutral
on every pair involving an item with no timestamp, so error entries
impose no ordering constraint (their final position is
implementation-defined, not guaranteed last). -/
theorem readMultipleChannels_sorted_amended (w : World) (a : RawArgs) (items : List Item)
    (h : readMultipleChannels w a = .ok (.fetched items)) :
    (∃ p g targets, ReadMultipleChannelsSchema.parse a = .ok p ∧
      findGuild w p.server = .ok g ∧
      targetChannels w g p.channels = .ok targets ∧
      jsSortConforms (targets.flatMap (channelItems w p.limitPerChannel)) items) ∧
    (∀ l out : List Item, jsSortConforms l out → cmpConsistentOn l → out.Pairwise descTS) ∧
    (∀ l : List Item, (∀ x ∈ l, x.timestamp.isSome = true) → cmpConsistentOn l) ∧
    (∀ x y : Item, x.timestamp = none ∨ y.timestamp = none → itemCmp x y = 0) := by
  obtain ⟨p, g, targets, hp, hg, ht, hitems⟩ := readMC_ok_inv w a items h
  refine ⟨⟨p, g, targets, hp, hg, ht, ?_⟩, ?_, fun l hl => Or.inl hl, ?_⟩
  · subst hitems
    exact ⟨(sortItems_perm _).symm, fun _ => rfl⟩
  · intro l out hconf hcons
    rw [hconf.2 hcons]
    exact sortItems_pairwise l
  · intro x y hxy
    rcases hxy with hx | hy
    · simp [itemCmp, hx]
    · unfold itemCmp
      rw [hy]
      rcases x.timestamp with _ | tx <;> simp

/-- **C2 (amended, witness).** The conformance and neutrality guarantees
instantiated on a concrete call gathering two timestamped messages and
one error entry. -/
theorem readMultipleChannels_sorted_amended_witness :
    (∃ p g targets,
      ReadMultipleChannelsSchema.parse ({ channels := some ["general", "random"] } : RawArgs) =
        .ok p ∧
      findGuild wEx p.server = .ok g ∧
      targetChannels wEx g p.channels = .ok targets ∧
      jsSortConforms (targets.flatMap (channelItems wEx p.limitPerChannel)) itemsEx) ∧
    (∀ l out : List Item, jsSortConforms l out → cmpConsistentOn l → out.Pairwise descTS) ∧
    (∀ l : List Item, (∀ x ∈ l, x.timestamp.isSome = true) → cmpConsistentOn l) ∧
    (∀ x y : Item, x.timestamp = none ∨ y.timestamp = none → itemCmp x y = 0) :=
  readMultipleChannels_sorted_amended wEx { channels := some ["general", "random"] } itemsEx rfl

theorem resolveAll_length (w : World) (gid : String) (ids : List String) (targets : List ChanE)
    (h : resolveAll w gid ids = .ok targets) : targets.length = ids.length := by
  induction ids generalizing targets with
  | nil =>
    simp only [resolveAll, Except.ok.injEq] at h
    simp [← h]
  | cons i is ih =>
    cases hf : findChannel w i (some gid) with
    | error e => simp [resolveAll, hf] at h
    | ok c =>
      cases hr : resolveAll w gid is with
      | error e => simp [resolveAll, hf, hr] at h
      | ok cs =>
        simp only [resolveAll, hf, hr, Except.ok.injEq] at h
        simp [← h, ih cs hr]

/-- **C1 (counterexample).** A concrete `read-multiple-channels` call with
three listed channels in which the middle identifier fails to resolve:
although the other two channels resolve fine (first two conjuncts), the
whole operation returns a single resolution error — the response contains
no formatted messages for the channels that would have succeeded. -/
theorem readMultipleChannels_resolutionFailure_aborts :
    findChannel wEx "general" (some "G1") = .ok cGeneral ∧
    findChannel wEx "random" (some "G1") = .ok cRandom ∧
    readMultipleChannels wEx { channels := some ["general", "nosuch", "random"] } =
      .error (.err ("Channel \"nosuch\" not found in server \"Alpha\". "
        ++ "Available channels: \"#general\", \"#random\"")) :=
  ⟨rfl, rfl, rfl⟩

/-- **C1 (amended).** In `read-multiple-channels` with an explicit target
list, a failure *fetching messages* from a resolved channel is captured as
a per-item error entry alongside the successful items of the other
channels in the same response; a failure *resolving* one of the listed
channels, however, rejects the whole `Promise.all` and aborts the entire
operation with that single error. -/
theorem readMultipleChannels_fetchFailuresCaptured (w : World) (a : RawArgs)
    (p : ReadMultipleChannelsArgsP) (g : GuildE) (ids : List String)
    (hp : ReadMultipleChannelsSchema.parse a = .ok p)
    (hg : findGuild w p.server = .ok g)
    (hids : p.channels = some ids)
    (hne : 0 < ids.length) :
    (∀ e, resolveAll w g.id ids = .error e →
      readMultipleChannels w a = .error (.err e)) ∧
    (∀ targets, resolveAll w g.id ids = .ok targets →
      readMultipleChannels w a =
          .ok (.fetched (sortItems (targets.flatMap (channelItems w p.limitPerChannel)))) ∧
        (∀ c ∈ targets, ∀ e, fetchMessages w c.id = .error e →
          ({ channel := "#" ++ c.name, server := guildNameOf w c,
             errMsg := some ("Failed to fetch messages: "
               ++ (if e = "" then "Unknown error" else e)) } : Item)
            ∈ sortItems (targets.flatMap (channelItems w p.limitPerChannel))) ∧
        (∀ c ∈ targets, ∀ msgs, fetchMessages w c.id = .ok msgs →
          ∀ m ∈ msgs.take p.limitPerChannel.toNat,
            formatMsg w c m ∈ sortItems (targets.flatMap (channelItems w p.limitPerChannel)))) := by
  constructor
  · intro e he
    simp [readMultipleChannels, hp, hg, targetChannels, hids, hne, he]
  · intro targets ht
    have hlen := resolveAll_length w g.id ids targets ht
    have hnz : ¬ targets.length = 0 := by omega
    refine ⟨?_, ?_, ?_⟩
    · simp [readMultipleChannels, hp, hg, targetChannels, hids, hne, ht, hnz]
    · intro c hc e he
      refine (sortItems_perm _).mem_iff.mpr ?_
      refine List.mem_flatMap.mpr ⟨c, hc, ?_⟩
      simp [channelItems, he]
    · intro c hc msgs hm m hmem
      refine (sortItems_perm _).mem_iff.mpr ?_
      refine List.mem_flatMap.mpr ⟨c, hc, ?_⟩
      rw [channelItems, hm]
      exact List.mem_map_of_mem _ hmem

/-- **C1 (amended, witness).** On the concrete world, the error entry for
the fetch-failing `#random` sits in the same response as the items of the
succeeding `#general`. -/
theorem readMultipleChannels_fetchFailuresCaptured_witness :
    ({ channel := "#random", server := "Alpha",
       errMsg := some ("Failed to fetch messages: "
         ++ (if "Missing Access" = "" then "Unknown error" else "Missing Access")) } : Item)
      ∈ sortItems ([cGeneral, cRandom].flatMap (channelItems wEx (10 : Int))) ∧
    formatMsg wEx cGeneral ⟨"u#1", "hi", 100⟩
      ∈ sortItems ([cGeneral, cRandom].flatMap (channelItems wEx (10 : Int))) := by
  have h := (readMultipleChannels_fetchFailuresCaptured wEx { channels := some ["general", "random"] }
    ⟨none, some ["general", "random"], 10⟩ gAlpha ["general", "random"]
    rfl rfl rfl (by decide)).2 [cGeneral, cRandom] rfl
  exact ⟨h.2.1 cRandom (by simp) "Missing Access" rfl,
    h.2.2 cGeneral (by simp) [⟨"u#1", "hi", 100⟩, ⟨"u#2", "yo", 200⟩] rfl _ (by simp)⟩

theorem mem_guildChannels {w : World} {g : GuildE} {c : ChanE}
    (h : c ∈ guildChannels w g) : c.guildId = g.id := by
  have := List.mem_filter.mp h
  simpa using this.2

/-- **C3.** Channel resolution by exact id accepts the fetched channel only
if it is a text channel of the resolved server: every successful
resolution returns a text channel scoped to the resolved guild, and an
id-fetch hit that is non-text or belongs to a different guild yields the
`NotFound`-style error, never a cross-scoped success. -/
theorem findChannel_scoped_text (w : World) (ident : String) (gid : Option String) :
    (∀ c, findChannel w ident gid = .ok c →
      c.isText = true ∧ ∃ g, findGuild w gid = .ok g ∧ c.guildId = g.id) ∧
    (∀ g c, findGuild w gid = .ok g →
      w.channels.find? (fun c => c.id = ident) = some c →
      ¬(c.isText = true ∧ c.guildId = g.id) →
      findChannel w ident gid = .error ("Channel \"" ++ ident
        ++ "\" is not a text channel or not found in server \"" ++ g.name ++ "\"")) := by
  constructor
  · intro c h
    cases hg : findGuild w gid with
    | error e => simp [findChannel, hg] at h
    | ok g =>
      refine ⟨?_, g, rfl, ?_⟩ <;>
      · cases hf : w.channels.find? (fun c => c.id = ident) with
        | some c0 =>
          simp only [findChannel, hg, hf] at h
          by_cases hok : c0.isText = true ∧ c0.guildId = g.id
          · rw [if_pos hok] at h
            simp only [Except.ok.injEq] at h
            subst h
            first
            | exact hok.1
            | exact hok.2
          · rw [if_neg hok] at h
            simp at h
        | none =>
          simp only [findChannel, hg, hf] at h
          rcases hfound : (guildChannels w g).filter (chanNameMatches ident) with _ | ⟨c1, rest⟩
          · rw [hfound] at h; simp at h
          · cases rest with
            | nil =>
              rw [hfound] at h
              simp only [Except.ok.injEq] at h
              subst h
              have hc1 : c1 ∈ (guildChannels w g).filter (chanNameMatches ident) := by
                rw [hfound]; exact List.mem_singleton_self c1
              have hmem := List.mem_filter.mp hc1
              have htext : c1.isText = true := by
                have := hmem.2
                simp only [chanNameMatches, Bool.and_eq_true] at this
                exact this.1
              first
              | exact htext
              | exact mem_guildChannels hmem.1
            | cons c2 rest2 =>
              rw [hfound] at h; simp at h
  · intro g c hg hf hbad
    simp only [findChannel, hg, hf, if_neg hbad]

/-- **C3 (witness).** A successful resolution is text and in-scope, and
resolving `cBeta`'s valid id against guild `Alpha` fails instead of
cross-scoping. -/
theorem findChannel_scoped_text_witness :
    (cGeneral.isText = true ∧
      ∃ g, findGuild wTwo (some "G1") = .ok g ∧ cGeneral.guildId = g.id) ∧
    findChannel wTwo "C9" (some "G1") =
      .error "Channel \"C9\" is not a text channel or not found in server \"Alpha\"" :=
  ⟨(findChannel_scoped_text wTwo "C1" (some "G1")).1 cGeneral rfl,
   (findChannel_scoped_text wTwo "C9" (some "G1")).2 gAlpha cBeta rfl rfl (by decide)⟩

/-- **C4.** Role resolution never treats a cache miss as authoritative: a
first-pass hit issues no refresh; on a first-pass miss exactly one
`roles.fetch()` refresh happens, both lookups are repeated once on the
then-current cache, and the `NotFound` error (listing all current role
names) is reported only when that second pass also finds nothing — for
both a succeeding and a throwing refresh. -/
theorem findRole_refresh_policy (w : World) (ident : String) (gid : Option String) (g : GuildE)
    (hg : findGuild w gid = .ok g) :
    (∀ r, roleLookup (guildRoles w.roles g) ident = some r →
      findRole w ident gid = (.ok r, 0)) ∧
    (roleLookup (guildRoles w.roles g) ident = none →
      (findRole w ident gid).2 = 1 ∧
      (∀ rs, w.rolesRefresh = .ok rs →
        (∀ r, roleLookup (guildRoles rs g) ident = some r →
          (findRole w ident gid).1 = .ok r) ∧
        (roleLookup (guildRoles rs g) ident = none →
          (findRole w ident gid).1 = .error ("Role \"" ++ ident ++ "\" not found in server \""
            ++ g.name ++ "\". Available roles: " ++ quotedList ((guildRoles rs g).map (·.name))))) ∧
      (∀ e, w.rolesRefresh = .error e →
        (findRole w ident gid).1 = .error ("Role \"" ++ ident ++ "\" not found in server \""
          ++ g.name ++ "\". Available roles: "
          ++ quotedList ((guildRoles w.roles g).map (·.name))))) := by
  constructor
  · intro r hr
    simp [findRole, hg, hr]
  · intro hmiss
    refine ⟨?_, ?_, ?_⟩
    · cases hrf : w.rolesRefresh with
      | ok rs =>
        cases hr2 : roleLookup (guildRoles rs g) ident <;>
          simp [findRole, hg, hmiss, hrf, hr2]
      | error e =>
        have hr2 : roleLookup (guildRoles w.roles g) ident = none := hmiss
        simp [findRole, hg, hmiss, hrf, hr2]
    · intro rs hrf
      constructor
      · intro r hr2
        simp [findRole, hg, hmiss, hrf, hr2]
      · intro hr2
        simp [findRole, hg, hmiss, hrf, hr2]
    · intro e hrf
      simp [findRole, hg, hmiss, hrf]

/-- **C4 (witness).** On a world whose role cache is initially empty but
whose refresh reveals `Moderator`, the first-pass miss triggers exactly
one refresh and the repeated lookup then succeeds. -/
theorem findRole_refresh_policy_witness :
    (findRole wStale "Moderator" (some "G1")).2 = 1 ∧
    (findRole wStale "Moderator" (some "G1")).1 = .ok rMod := by
  have h := (findRole_refresh_policy wStale "Moderator" (some "G1") gAlpha rfl).2 rfl
  exact ⟨h.1, (h.2.1 [rMod] rfl).1 rMod rfl⟩

/-- **C5.** With the server identifier omitted, guild resolution succeeds
exactly when the process has joined exactly one server (returning it); in
every other case — zero joined servers or two or more — it fails with the
ambiguous-context error enumerating the names of all joined servers. -/
theorem findGuild_omitted (w : World) :
    (∀ g, w.guilds = [g] → findGuild w none = .ok g) ∧
    (w.guilds.length ≠ 1 →
      findGuild w none = .error ("Bot is in multiple servers. Please specify server name or ID. "
        ++ "Available servers: " ++ quotedList (w.guilds.map (·.name)))) ∧
    (∀ g, findGuild w none = .ok g → w.guilds = [g]) := by
  refine ⟨?_, ?_, ?_⟩
  · intro g hw
    simp [findGuild, hw]
  · intro hlen
    rcases hw : w.guilds with _ | ⟨a, _ | ⟨b, l⟩⟩
    · simp [findGuild, hw, guildListStr, quotedList]
    · rw [hw] at hlen; simp at hlen
    · simp only [findGuild, hw, guildListStr]
      rfl
  · intro g h
    rcases hw : w.guilds with _ | ⟨a, _ | ⟨b, l⟩⟩ <;> simp only [findGuild, hw] at h
    · simp at h
    · simp only [Except.ok.injEq] at h; rw [h]
    · simp at h

/-- **C5 (witness).** One joined server resolves to it; with two joined
servers the omitted identifier yields the enumerating error. -/
theorem findGuild_omitted_witness :
    findGuild wEx none = .ok gAlpha ∧
    findGuild wTwo none = .error ("Bot is in multiple servers. Please specify server name or ID. "
      ++ "Available servers: " ++ quotedList (wTwo.guilds.map (·.name))) :=
  ⟨(findGuild_omitted wEx).1 gAlpha rfl, (findGuild_omitted wTwo).2.1 (by decide)⟩

/-- **C6.** When channel resolution falls back to name matching (id fetch
missed), the outcome is decided by the number of case-insensitive
text-channel matches of the (possibly `#`-prefixed) identifier: exactly
one match resolves to that channel, two or more always yield the
ambiguous error listing every candidate as `#name (id)`, zero yield the
not-found error listing all text channel names of the server; and any
text channel whose lowercased name equals the lowercased identifier or
its de-sigiled form is a match. -/
theorem findChannel_name_fallback (w : World) (ident : String) (gid : Option String) (g : GuildE)
    (hg : findGuild w gid = .ok g)
    (hmiss : w.channels.find? (fun c => c.id = ident) = none) :
    (∀ c, (guildChannels w g).filter (chanNameMatches ident) = [c] →
      findChannel w ident gid = .ok c) ∧
    (∀ c₁ c₂ rest, (guildChannels w g).filter (chanNameMatches ident) = c₁ :: c₂ :: rest →
      findChannel w ident gid = .error ("Multiple channels found with name \"" ++ ident
        ++ "\" in server \"" ++ g.name ++ "\": "
        ++ String.intercalate ", "
          ((c₁ :: c₂ :: rest).map (fun c => "#" ++ c.name ++ " (" ++ c.id ++ ")"))
        ++ ". Please specify the channel ID.")) ∧
    ((guildChannels w g).filter (chanNameMatches ident) = [] →
      findChannel w ident gid = .error ("Channel \"" ++ ident ++ "\" not found in server \""
        ++ g.name ++ "\". Available channels: " ++ textChannelNames w g)) ∧
    (∀ c, c.isText = true →
      (strLower c.name = strLower ident ∨ strLower c.name = removeFirstHash (strLower ident)) →
      chanNameMatches ident c = true) := by
  refine ⟨?_, ?_, ?_, ?_⟩
  · intro c hfound
    simp [findChannel, hg, hmiss, hfound]
  · intro c₁ c₂ rest hfound
    simp [findChannel, hg, hmiss, hfound]
  · intro hfound
    simp [findChannel, hg, hmiss, hfound]
  · intro c h1 h2
    rcases h2 with h2 | h2 <;> simp [chanNameMatches, h1, h2]

/-- **C6 (witness).** `#GENERAL` resolves to the single `general` channel
despite case and sigil; a duplicate name yields the candidate-listing
ambiguity error; an unknown name yields the channel-list not-found error. -/
theorem findChannel_name_fallback_witness :
    findChannel wEx "#GENERAL" none = .ok cGeneral ∧
    findChannel wDup "general" none =
      .error ("Multiple channels found with name \"general\" in server \"Alpha\": "
        ++ "#general (C1), #GENERAL (C4). Please specify the channel ID.") ∧
    findChannel wEx "nothere" none =
      .error ("Channel \"nothere\" not found in server \"Alpha\". "
        ++ "Available channels: \"#general\", \"#random\"") :=
  ⟨(findChannel_name_fallback wEx "#GENERAL" none gAlpha rfl rfl).1 cGeneral rfl,
   (findChannel_name_fallback wDup "general" none gAlpha rfl rfl).2.1 cGeneral cGeneral2 [] rfl,
   (findChannel_name_fallback wEx "nothere" none gAlpha rfl rfl).2.2.1 rfl⟩

/-- **C7.** Every mutation operation checks its idempotency guard before
issuing any remote mutation call: `assign-role` on a member already
holding the role, `remove-role` on a member lacking it, and
`create-channel`/`create-role` when a same-named (case-insensitive)
channel/role already exists in the same scope, each fail with the
descriptive conflict error and record no remote mutation effect. -/
theorem mutation_idempotency_guards :
    (∀ w a p g m r, AssignRoleSchema.parse a = .ok p →
      findGuild w p.server = .ok g →
      findMember w p.user (some g.id) = .ok m →
      (findRole w p.role (some g.id)).1 = .ok r →
      m.roleIds.contains r.id = true →
      assignRoleHandler w a =
        (.error (.err ("User " ++ m.tag ++ " already has the role \"" ++ r.name ++ "\".")), [])) ∧
    (∀ w a p g m r, RemoveRoleSchema.parse a = .ok p →
      findGuild w p.server = .ok g →
      findMember w p.user (some g.id) = .ok m →
      (findRole w p.role (some g.id)).1 = .ok r →
      m.roleIds.contains r.id = false →
      removeRoleHandler w a =
        (.error (.err ("User " ++ m.tag ++ " does not have the role \"" ++ r.name ++ "\".")), [])) ∧
    (∀ w a p g c, CreateChannelSchema.parse a = .ok p →
      findGuild w p.server = .ok g →
      (guildChannels w g).find?
        (fun c => strLower c.name == strLower p.channelName && c.isText) = some c →
      createChannelHandler w a =
        (.error (.err ("A text channel named \"" ++ p.channelName ++ "\" already exists in server \""
          ++ g.name ++ "\".")), [])) ∧
    (∀ w a p g r, CreateRoleSchema.parse a = .ok p →
      findGuild w p.server = .ok g →
      (guildRoles w.roles g).find? (fun r => strLower r.name == strLower p.roleName) = some r →
      createRoleHandler w a =
        (.error (.err ("A role named \"" ++ p.roleName ++ "\" already exists in server \""
          ++ g.name ++ "\".")), [])) := by
  refine ⟨?_, ?_, ?_, ?_⟩
  · intro w a p g m r hp hg hm hr hhas
    have hmem : r.id ∈ m.roleIds := by simpa using hhas
    simp [assignRoleHandler, hp, hg, hm, hr, hmem]
  · intro w a p g m r hp hg hm hr hlacks
    have hmem : r.id ∉ m.roleIds := by simpa using hlacks
    simp only [RemoveRoleSchema.parse] at hp
    simp [removeRoleHandler, RemoveRoleSchema.parse, hp, hg, hm, hr, hmem]
  · intro w a p g c hp hg hc
    simp [createChannelHandler, hp, hg, hc]
  · intro w a p g r hp hg hr
    simp [createRoleHandler, hp, hg, hr]

/-- **C7 (witness).** All four guards fire on the fixture world: `alice#1`
already holds `Moderator`, lacks `Helper`, and `GENERAL` / `moderator`
collide case-insensitively with existing names. -/
theorem mutation_idempotency_guards_witness :
    assignRoleHandler wEx { user := some "alice#1", role := some "Moderator" } =
      (.error (.err "User alice#1 already has the role \"Moderator\"."), []) ∧
    removeRoleHandler wEx { user := some "alice#1", role := some "Helper" } =
      (.error (.err "User alice#1 does not have the role \"Helper\"."), []) ∧
    createChannelHandler wEx { channelName := some "GENERAL" } =
      (.error (.err "A text channel named \"GENERAL\" already exists in server \"Alpha\"."), []) ∧
    createRoleHandler wEx { roleName := some "moderator" } =
      (.error (.err "A role named \"moderator\" already exists in server \"Alpha\"."), []) :=
  ⟨mutation_idempotency_guards.1 wEx _ ⟨none, "alice#1", "Moderator"⟩ gAlpha mAlice rMod
      rfl rfl rfl rfl rfl,
   mutation_idempotency_guards.2.1 wEx _ ⟨none, "alice#1", "Helper"⟩ gAlpha mAlice rExtra
      rfl rfl rfl rfl rfl,
   mutation_idempotency_guards.2.2.1 wEx _ ⟨none, "GENERAL"⟩ gAlpha cGeneral rfl rfl rfl,
   mutation_idempotency_guards.2.2.2 wEx _ ⟨none, "moderator", none, none, false⟩ gAlpha rMod
      rfl rfl rfl⟩

/-- **C8.** For every supported operation, schema validation runs before
any resolver or collaborator call: an input missing a required field
always yields the normalized validation error — with every missing field
path listed as `field: Required` among the enumerated issues — never a
downstream resolution error; the outcome is independent of the world
state (no resolver influenced it) and no mutation effect is recorded. -/
theorem validation_before_resolution (op : String) (a : RawArgs) (w w' : World)
    (h : missingReq op a ≠ []) :
    ∃ issues, dispatch w op a = (.error (normalizeError (.zodFail issues)), []) ∧
      dispatch w' op a = dispatch w op a ∧
      ∀ f ∈ missingReq op a, (⟨f, "Required"⟩ : Issue) ∈ issues := by
  rcases eq_or_ne op "send-message" with rfl | h1
  · refine ⟨reqStr "channel" a.channel ++ reqStr "message" a.message, ?_, ?_, ?_⟩ <;>
      (rcases hc : a.channel with _ | c <;> rcases hm : a.message with _ | m <;>
        first
        | (simp [dispatch, sendMessageHandler, SendMessageSchema.parse, Except.mapError,
            missingReq, requiredFields, fieldAbsent, reqStr, hc, hm]
           done)
        | (exfalso; simp [missingReq, requiredFields, fieldAbsent, hc, hm] at h))
  rcases eq_or_ne op "read-messages" with rfl | h2
  · refine ⟨reqStr "channel" a.channel ++ numIssues "limit" 1 100 a.limit, ?_, ?_, ?_⟩ <;>
      (rcases hc : a.channel with _ | c <;>
        first
        | (simp [dispatch, readMessagesHandler, ReadMessagesSchema.parse, Except.mapError,
            missingReq, requiredFields, fieldAbsent, reqStr, hc]
           done)
        | (exfalso; simp [missingReq, requiredFields, fieldAbsent, hc] at h))
  rcases eq_or_ne op "create-channel" with rfl | h3
  · refine ⟨reqStr "channelName" a.channelName, ?_, ?_, ?_⟩ <;>
      (rcases hc : a.channelName with _ | c <;>
        first
        | (simp [dispatch, createChannelHandler, CreateChannelSchema.parse, Except.mapError,
            missingReq, requiredFields, fieldAbsent, reqStr, hc]
           done)
        | (exfalso; simp [missingReq, requiredFields, fieldAbsent, hc] at h))
  rcases eq_or_ne op "assign-role" with rfl | h4
  · refine ⟨reqStr "user" a.user ++ reqStr "role" a.role, ?_, ?_, ?_⟩ <;>
      (rcases hu : a.user with _ | u <;> rcases hr : a.role with _ | r <;>
        first
        | (simp [dispatch, assignRoleHandler, AssignRoleSchema.parse, Except.mapError,
            missingReq, requiredFields, fieldAbsent, reqStr, hu, hr]
           done)
        | (exfalso; simp [missingReq, requiredFields, fieldAbsent, hu, hr] at h))
  rcases eq_or_ne op "remove-role" with rfl | h5
  · refine ⟨reqStr "user" a.user ++ reqStr "role" a.role, ?_, ?_, ?_⟩ <;>
      (rcases hu : a.user with _ | u <;> rcases hr : a.role with _ | r <;>
        first
        | (simp [dispatch, removeRoleHandler, RemoveRoleSchema.parse, AssignRoleSchema.parse,
            Except.mapError, missingReq, requiredFields, fieldAbsent, reqStr, hu, hr]
           done)
        | (exfalso; simp [missingReq, requiredFields, fieldAbsent, hu, hr] at h))
  rcases eq_or_ne op "create-role" with rfl | h6
  · refine ⟨reqStr "roleName" a.roleName, ?_, ?_, ?_⟩ <;>
      (rcases hc : a.roleName with _ | c <;>
        first
        | (simp [dispatch, createRoleHandler, CreateRoleSchema.parse, Except.mapError,
            missingReq, requiredFields, fieldAbsent, reqStr, hc]
           done)
        | (exfalso; simp [missingReq, requiredFields, fieldAbsent, hc] at h))
  rcases eq_or_ne op "delete-role" with rfl | h7
  · refine ⟨reqStr "role" a.role, ?_, ?_, ?_⟩ <;>
      (rcases hr : a.role with _ | r <;>
        first
        | (simp [dispatch, deleteRoleHandler, DeleteRoleSchema.parse, Except.mapError,
            missingReq, requiredFields, fieldAbsent, reqStr, hr]
           done)
        | (exfalso; simp [missingReq, requiredFields, fieldAbsent, hr] at h))
  rcases eq_or_ne op "update-role" with rfl | h8
  · refine ⟨reqStr "role" a.role, ?_, ?_, ?_⟩ <;>
      (rcases hr : a.role with _ | r <;>
        first
        | (simp [dispatch, updateRoleHandler, UpdateRoleSchema.parse, Except.mapError,
            missingReq, requiredFields, fieldAbsent, reqStr, hr]
           done)
        | (exfalso; simp [missingReq, requiredFields, fieldAbsent, hr] at h))
  rcases eq_or_ne op "get-role-member-count" with rfl | h9
  · refine ⟨reqStr "role" a.role, ?_, ?_, ?_⟩ <;>
      (rcases hr : a.role with _ | r <;>
        first
        | (simp [dispatch, getRoleMemberCountHandler, GetRoleMemberCountSchema.parse,
            DeleteRoleSchema.parse, Except.mapError,
            missingReq, requiredFields, fieldAbsent, reqStr, hr]
           done)
        | (exfalso; simp [missingReq, requiredFields, fieldAbsent, hr] at h))
  exfalso
  simp [missingReq, requiredFields, h1, h2, h3, h4, h5, h6, h7, h8, h9] at h

/-- **C8 (witness).** `send-message` with both required fields absent, on
two different worlds. -/
theorem validation_before_resolution_witness :
    ∃ issues, dispatch wEx "send-message" {} =
        (.error (normalizeError (.zodFail issues)), []) ∧
      dispatch wTwo "send-message" {} = dispatch wEx "send-message" {} ∧
      ∀ f ∈ missingReq "send-message" {}, (⟨f, "Required"⟩ : Issue) ∈ issues :=
  validation_before_resolution "send-message" {} wEx wTwo (by decide)

theorem readMessages_parse_limit {a : RawArgs} {p : ReadMessagesArgsP}
    (hp : ReadMessagesSchema.parse a = .ok p) :
    1 ≤ p.limit ∧ p.limit ≤ 100 ∧ (a.limit = none → p.limit = 50) ∧
      ∀ n, a.limit = some n → p.limit = n := by
  cases hc : a.channel with
  | none => simp [ReadMessagesSchema.parse, hc] at hp
  | some c =>
    cases hl : a.limit with
    | none =>
      simp only [ReadMessagesSchema.parse, reqStr, numIssues, hc, hl, List.nil_append,
        if_true, Except.ok.injEq] at hp
      have hl2 : p.limit = 50 := by rw [← hp]; rfl
      exact ⟨by omega, by omega, fun _ => hl2, fun n hn => Option.noConfusion hn⟩
    | some n =>
      by_cases hlo : n < 1
      · simp [ReadMessagesSchema.parse, reqStr, numIssues, hc, hl, hlo] at hp
      · by_cases hhi : n > 100
        · simp [ReadMessagesSchema.parse, reqStr, numIssues, hc, hl, hlo, hhi] at hp
        · simp only [ReadMessagesSchema.parse, reqStr, numIssues, hc, hl, if_neg hlo,
            if_neg hhi, List.nil_append, List.append_nil, if_true, Except.ok.injEq] at hp
          have hl2 : p.limit = n := by rw [← hp]; rfl
          refine ⟨by omega, by omega, fun hx => Option.noConfusion hx, ?_⟩
          intro m hm
          injection hm with e
          omega

theorem readMulti_parse_limit {a : RawArgs} {p : ReadMultipleChannelsArgsP}
    (hp : ReadMultipleChannelsSchema.parse a = .ok p) :
    1 ≤ p.limitPerChannel ∧ p.limitPerChannel ≤ 50 ∧
      (a.limitPerChannel = none → p.limitPerChannel = 10) ∧
      ∀ n, a.limitPerChannel = some n → p.limitPerChannel = n := by
  cases hl : a.limitPerChannel with
  | none =>
    simp only [ReadMultipleChannelsSchema.parse, numIssues, hl, if_true,
      Except.ok.injEq] at hp
    have hl2 : p.limitPerChannel = 10 := by rw [← hp]; rfl
    exact ⟨by omega, by omega, fun _ => hl2, fun n hn => Option.noConfusion hn⟩
  | some n =>
    by_cases hlo : n < 1
    · simp [ReadMultipleChannelsSchema.parse, numIssues, hl, hlo] at hp
    · by_cases hhi : n > 50
      · simp [ReadMultipleChannelsSchema.parse, numIssues, hl, hlo, hhi] at hp
      · simp only [ReadMultipleChannelsSchema.parse, numIssues, hl, if_neg hlo, if_neg hhi,
          List.nil_append, List.append_nil, if_true, Except.ok.injEq] at hp
        have hl2 : p.limitPerChannel = n := by rw [← hp]; rfl
        refine ⟨by omega, by omega, fun hx => Option.noConfusion hx, ?_⟩
        intro m hm
        injection hm with e
        omega

/-- **C9.** The `read-messages` limit defaults to 50 when omitted and the
value actually used is always within 1..100 (larger/smaller inputs are
rejected at validation); the `read-multiple-channels` per-channel limit
defaults to 10 when omitted and is always within 1..50; consequently a
successful `read-messages` response never carries more than 100 items. -/
theorem limit_defaults_and_caps (a : RawArgs) :
    (∀ p, ReadMessagesSchema.parse a = .ok p →
      1 ≤ p.limit ∧ p.limit ≤ 100 ∧ (a.limit = none → p.limit = 50) ∧
        ∀ n, a.limit = some n → p.limit = n) ∧
    (∀ p, ReadMultipleChannelsSchema.parse a = .ok p →
      1 ≤ p.limitPerChannel ∧ p.limitPerChannel ≤ 50 ∧
        (a.limitPerChannel = none → p.limitPerChannel = 10) ∧
        ∀ n, a.limitPerChannel = some n → p.limitPerChannel = n) ∧
    (∀ w items, (readMessagesHandler w a).1 = .ok (.itemsOut items) → items.length ≤ 100) := by
  refine ⟨fun p hp => readMessages_parse_limit hp, fun p hp => readMulti_parse_limit hp, ?_⟩
  intro w items h
  cases hp : ReadMessagesSchema.parse a with
  | error _ => simp [readMessagesHandler, hp] at h
  | ok p =>
    cases hf : findChannel w p.channel p.server with
    | error e => simp [readMessagesHandler, hp, hf] at h
    | ok c =>
      cases hm : fetchMessages w c.id with
      | error e => simp [readMessagesHandler, hp, hf, hm] at h
      | ok msgs =>
        simp only [readMessagesHandler, hp, hf, hm, Except.ok.injEq,
          ToolOut.itemsOut.injEq] at h
        have hb := (readMessages_parse_limit hp).2.1
        have htn : p.limit.toNat ≤ 100 := by omega
        calc items.length = ((msgs.take p.limit.toNat).map (formatMsg w c)).length := by
              rw [h]
          _ = (msgs.take p.limit.toNat).length := List.length_map _ _
          _ ≤ p.limit.toNat := by
              rw [List.length_take]
              exact min_le_left _ _
          _ ≤ 100 := htn

/-- **C9 (witness).** Omitted limits produce the defaults 50 and 10; a
supplied in-range limit is used as given; a concrete successful read
returns at most 100 items. -/
theorem limit_defaults_and_caps_witness :
    (1 ≤ (50 : Int) ∧ (50 : Int) ≤ 100 ∧
      ((none : Option Int) = none → (50 : Int) = 50) ∧
      ∀ n, (none : Option Int) = some n → (50 : Int) = n) ∧
    (1 ≤ (10 : Int) ∧ (10 : Int) ≤ 50 ∧
      ((none : Option Int) = none → (10 : Int) = 10) ∧
      ∀ n, (none : Option Int) = some n → (10 : Int) = n) ∧
    ([({ channel := "#general", server := "Alpha", author := "u#1", content := "hi",
         timestamp := some 100 } : Item),
      { channel := "#general", server := "Alpha", author := "u#2", content := "yo",
        timestamp := some 200 }] : List Item).length ≤ 100 := by
  have h := limit_defaults_and_caps { channel := some "general" }
  exact ⟨h.1 ⟨none, "general", 50⟩ rfl, h.2.1 ⟨none, none, 10⟩ rfl,
    h.2.2 wEx _ rfl⟩

/-- **C10.** In `update-role`, when the server and role resolve but none of
`newName`, `newColor`, `newPermissions`, `newMentionable` is supplied, the
handler fails with the descriptive `No update parameters provided` error
and records no remote edit effect. -/
theorem updateRole_empty_guard (w : World) (a : RawArgs) (p : UpdateRoleArgsP)
    (g : GuildE) (r : RoleE)
    (hp : UpdateRoleSchema.parse a = .ok p)
    (hg : findGuild w p.server = .ok g)
    (hr : (findRole w p.role (some g.id)).1 = .ok r)
    (h1 : p.newName = none) (h2 : p.newColor = none)
    (h3 : p.newPermissions = none) (h4 : p.newMentionable = none) :
    updateRoleHandler w a = (.error (.err "No update parameters provided for the role."), []) := by
  simp [updateRoleHandler, hp, hg, hr, h1, h2, h3, h4]

/-- **C10 (witness).** Updating `Moderator` with no update fields set fails
with the guard error and no edit effect. -/
theorem updateRole_empty_guard_witness :
    updateRoleHandler wEx { role := some "Moderator" } =
      (.error (.err "No update parameters provided for the role."), []) :=
  updateRole_empty_guard wEx { role := some "Moderator" }
    ⟨none, "Moderator", none, none, none, none⟩ gAlpha rMod rfl rfl rfl rfl rfl rfl rfl

end DiscordMCP
